import Mathlib

/-!
Verification development for the reverseproxy repository (src/reverse.go).

The Go source is shallowly embedded as follows.

* Durations and time instants are `Int` nanoseconds, matching the integer
  representation of the Go duration and time types.
* `ProxyHTTPS` (reverse.go lines 65-122) is embedded as a trace-producing
  function: a `TunnelEnv` records the outcome of each fallible external
  operation (hijacker support of the response writer, hijack, dial,
  the two `SetDeadline` calls, the handshake `Write`, and the two
  `io.Copy` results), and the embedding produces the ordered sequence of
  observable events performed on the calling goroutine plus, when the
  relay phase is reached, the event sequence of the spawned goroutine.
  The branch structure mirrors the sequential if-err-return chain of the
  source line by line.
* `ServeHTTP` (lines 124-130) is the dispatcher; it is embedded as a
  function from the request method string to the selected mode.
* `NewReverseProxy` (lines 37-51) is embedded with an explicit global
  state holding the process-wide shared default transport
  (`http.DefaultTransport`), and a reference type distinguishing a proxy
  whose transport aliases that shared object from one owning a separate
  transport.  `httputil.NewSingleHostReverseProxy` leaves the transport
  field nil, which the embedding reflects.
-/

/-- The two connections of a CONNECT tunnel session: the hijacked client
connection and the dialed upstream connection. -/
inductive ConnId : Type
  | client
  | upstream
deriving DecidableEq, Repr

/-- Observable events of a tunnel session, in the order the code performs
them.  `dialed h ok` records the `net.Dial` call with its outcome;
`deadlineSet c t` records a `SetDeadline(t)` call on connection `c`;
`wrote c d ok` records a `Write` of the bytes of `d` on `c` with outcome
`ok`; `copied dst src e` records completion of `io.Copy(dst, src)` where
`e` says whether the copy ended with an error; `spawned` marks the
start of the concurrently scheduled goroutine; `closed c` records a
`Close()` call on `c`; `logged m` records a call of the `logf` sink. -/
inductive Event : Type
  | logged (msg : String)
  | hijacked
  | dialed (host : String) (ok : Bool)
  | deadlineSet (c : ConnId) (t : Int)
  | wrote (c : ConnId) (data : String) (ok : Bool)
  | spawned
  | copied (dst : ConnId) (src : ConnId) (errored : Bool)
  | closed (c : ConnId)
deriving DecidableEq, Repr

/-- Outcomes of the fallible external operations a CONNECT session
performs, in source order.  The last two fields record whether the
respective `io.Copy` ends in an error; the source discards those error
values (lines 114 and 119), which is visible below in that they never
influence control flow. -/
structure TunnelEnv : Type where
  hijackSupported : Bool
  hijackOk : Bool
  dialOk : Bool
  setClientDeadlineOk : Bool
  setUpstreamDeadlineOk : Bool
  writeOk : Bool
  goroutineCopyErr : Bool
  mainCopyErr : Bool
deriving DecidableEq, Repr

/-- All establishment-phase operations succeed (the relay copy outcomes
are unconstrained). -/
def TunnelEnv.allOk (e : TunnelEnv) : Bool :=
  e.hijackSupported && e.hijackOk && e.dialOk &&
    e.setClientDeadlineOk && e.setUpstreamDeadlineOk && e.writeOk

/-- `defaultTimeout = time.Minute * 5` (reverse.go line 15), in
nanoseconds: five minutes. -/
def defaultTimeout : Int := 5 * 60 * 1000000000

/-- The proxy configuration relevant to the tunnel path: the `Timeout`
field of the `ReverseProxy` struct (line 23), default 0 meaning unset. -/
structure ReverseProxy : Type where
  Timeout : Int
deriving DecidableEq, Repr

/-- The deadline computation of reverse.go lines 88-93: start from the
current time, add `defaultTimeout` when `Timeout` is zero and the
configured `Timeout` otherwise. -/
def computeDeadline (p : ReverseProxy) (now : Int) : Int :=
  if p.Timeout = 0 then now + defaultTimeout else now + p.Timeout

/-- The synthetic status line of line 107. -/
def handshake : String := "HTTP/1.0 200 OK\r\n\r\n"

/-- The trace of one CONNECT session: the events performed on the calling
goroutine, and the event list of the spawned relay goroutine when the
session reaches the relay phase (`none` when the session aborts first). -/
structure SessionTrace : Type where
  main : List Event
  goroutine : Option (List Event)
deriving DecidableEq, Repr

/-- Embedding of `ProxyHTTPS` (reverse.go lines 65-122).  Each branch
mirrors one if-err-return block of the source, in source order:
hijacker support check (66-70), hijack (72-76), dial (78-82), deadline
computation (88-93), the two SetDeadline calls (95-105), the handshake
write (107-111), the spawned goroutine (113-117) and the main-goroutine
copy and closes (119-121). -/
def ProxyHTTPS (p : ReverseProxy) (env : TunnelEnv) (now : Int) (host : String) :
    SessionTrace :=
  if !env.hijackSupported then
    { main := [.logged "http server does not support hijacker"], goroutine := none }
  else if !env.hijackOk then
    { main := [.logged "http: proxy error: %v"], goroutine := none }
  else if !env.dialOk then
    { main := [.hijacked, .dialed host false, .logged "http: proxy error: %v"],
      goroutine := none }
  else
    let deadline := computeDeadline p now
    if !env.setClientDeadlineOk then
      { main := [.hijacked, .dialed host true, .deadlineSet .client deadline,
                 .logged "http: proxy error: %v"],
        goroutine := none }
    else if !env.setUpstreamDeadlineOk then
      { main := [.hijacked, .dialed host true, .deadlineSet .client deadline,
                 .deadlineSet .upstream deadline, .logged "http: proxy error: %v"],
        goroutine := none }
    else if !env.writeOk then
      { main := [.hijacked, .dialed host true, .deadlineSet .client deadline,
                 .deadlineSet .upstream deadline, .wrote .client handshake false,
                 .logged "http: proxy error: %v"],
        goroutine := none }
    else
      { main := [.hijacked, .dialed host true, .deadlineSet .client deadline,
                 .deadlineSet .upstream deadline, .wrote .client handshake true,
                 .spawned, .copied .upstream .client env.mainCopyErr,
                 .closed .upstream, .closed .client],
        goroutine := some [.copied .client .upstream env.goroutineCopyErr,
                           .closed .client, .closed .upstream] }

/-- Handling mode selected by the dispatcher. -/
inductive Mode : Type
  | tunnel
  | forward
deriving DecidableEq, Repr

/-- Embedding of `ServeHTTP` (reverse.go lines 124-130): tunnel mode
exactly when the method string equals "CONNECT". -/
def ServeHTTP (method : String) : Mode :=
  if method = "CONNECT" then .tunnel else .forward

/-- Successful payloads written on connection `c` in a trace, in order. -/
def writesTo (c : ConnId) (tr : List Event) : List String :=
  tr.filterMap fun e =>
    match e with
    | .wrote c2 d ok => if c2 = c ∧ ok = true then some d else none
    | _ => none

/-- Deadline-set calls recorded in a trace, in order. -/
def deadlinesSet (tr : List Event) : List (ConnId × Int) :=
  tr.filterMap fun e =>
    match e with
    | .deadlineSet c t => some (c, t)
    | _ => none

/-- Log messages recorded in a trace, in order. -/
def logsOf (tr : List Event) : List String :=
  tr.filterMap fun e =>
    match e with
    | .logged m => some m
    | _ => none

/-- Close calls recorded in a trace, in order. -/
def closesOf (tr : List Event) : List ConnId :=
  tr.filterMap fun e =>
    match e with
    | .closed c => some c
    | _ => none

/-- All log messages of a session, main goroutine first. -/
def logsOfSession (s : SessionTrace) : List String :=
  logsOf s.main ++ (match s.goroutine with
    | some g => logsOf g
    | none => [])

/-- Number of completed relay copies recorded in a trace. -/
def copyCount (tr : List Event) : Nat :=
  (tr.filter fun e =>
    match e with
    | .copied _ _ _ => true
    | _ => false).length

/-- True on the events that start or belong to the relay phase. -/
def isRelayStart (e : Event) : Bool :=
  match e with
  | .spawned => true
  | .copied _ _ _ => true
  | _ => false

/-- Result of replaying a sequence of `Close()` calls against
idempotent-close connection state: the final closed flags of the two
connections and, for each, how many of the calls actually transitioned
it from open to closed (a `Close()` on an already closed connection is
a no-op). -/
structure CloseStats : Type where
  clientClosed : Bool
  upstreamClosed : Bool
  clientTransitions : Nat
  upstreamTransitions : Nat
deriving DecidableEq, Repr

/-- Replay a list of `Close()` calls from the state where the client
connection is closed iff `cc` and the upstream connection is closed
iff `uc`, with idempotent close semantics. -/
def closeRun (cc uc : Bool) : List ConnId → CloseStats
  | [] =>
    { clientClosed := cc, upstreamClosed := uc,
      clientTransitions := 0, upstreamTransitions := 0 }
  | .client :: rest =>
    let q := closeRun true uc rest
    { q with clientTransitions := (if cc then 0 else 1) + q.clientTransitions }
  | .upstream :: rest =>
    let q := closeRun cc true rest
    { q with upstreamTransitions := (if uc then 0 else 1) + q.upstreamTransitions }

/-- `Interleave a b c` holds when `c` is a merge of `a` and `b` that
preserves the relative order of each: the possible global orders of the
close calls issued by the two concurrently completing relay directions. -/
inductive Interleave : List ConnId → List ConnId → List ConnId → Prop
  | nil : Interleave [] [] []
  | left {x : ConnId} {a b c : List ConnId} :
      Interleave a b c → Interleave (x :: a) b (x :: c)
  | right {x : ConnId} {a b c : List ConnId} :
      Interleave a b c → Interleave a (x :: b) (x :: c)

/-- The modelled TLS client configuration object; distinct values are
distinguishable but otherwise opaque. -/
structure TLSConfig : Type where
  id : Nat
deriving DecidableEq, Repr

/-- The fields of an `http.Transport` relevant here. -/
structure Transport : Type where
  tlsClientConfig : Option TLSConfig
deriving DecidableEq, Repr

/-- Process-wide mutable state: the shared `http.DefaultTransport`
object. -/
structure GlobalState : Type where
  defaultTransport : Transport
deriving DecidableEq, Repr

/-- A reference to a transport object: either an alias of the shared
`http.DefaultTransport`, or a separately owned transport value. -/
inductive TransportRef : Type
  | defaultTransportRef
  | separate (t : Transport)
deriving DecidableEq, Repr

/-- The transport field of the `httputil.ReverseProxy` the constructor
builds on: `none` models a nil `Transport`. -/
structure HttputilReverseProxy : Type where
  transport : Option TransportRef
deriving DecidableEq, Repr

/-- `httputil.NewSingleHostReverseProxy` (Go standard library): builds a
reverse proxy with only the director set, leaving the `Transport` field
nil. -/
def NewSingleHostReverseProxy (target : String) : HttputilReverseProxy :=
  { transport := none }

/-- The part of the constructed `ReverseProxy` observable here: which
transport object the embedded reverse proxy ends up using. -/
structure ConstructedProxy : Type where
  transport : TransportRef
deriving DecidableEq, Repr

/-- Embedding of `NewReverseProxy` (reverse.go lines 37-51) with the
heap aliasing made explicit: when the inner proxy has no transport it is
pointed at the shared `http.DefaultTransport` (lines 40-42), and a
non-nil `tlsClientConfig` is then written through that pointer (lines
44-48), mutating whichever transport object the pointer refers to.
Returns the constructed proxy together with the updated global state. -/
def NewReverseProxy (g : GlobalState) (target : String)
    (tlsClientConfig : Option TLSConfig) : ConstructedProxy × GlobalState :=
  let p := NewSingleHostReverseProxy target
  let pt : TransportRef :=
    match p.transport with
    | none => .defaultTransportRef
    | some r => r
  match tlsClientConfig with
  | none => ({ transport := pt }, g)
  | some cfg =>
    match pt with
    | .defaultTransportRef =>
      ({ transport := .defaultTransportRef },
       { g with defaultTransport :=
           { g.defaultTransport with tlsClientConfig := some cfg } })
    | .separate t =>
      ({ transport := .separate { t with tlsClientConfig := some cfg } }, g)

/-- Events of the spawned relay goroutine, empty when none was spawned. -/
def goroutineEvents (s : SessionTrace) : List Event :=
  match s.goroutine with
  | some g => g
  | none => []

/-- Dial calls recorded in a trace, in order. -/
def dialsOf (tr : List Event) : List (String × Bool) :=
  tr.filterMap fun e =>
    match e with
    | .dialed h ok => some (h, ok)
    | _ => none

/-- Environment of a fully successful session with error-free relay. -/
def envAllOk : TunnelEnv :=
  { hijackSupported := true, hijackOk := true, dialOk := true,
    setClientDeadlineOk := true, setUpstreamDeadlineOk := true,
    writeOk := true, goroutineCopyErr := false, mainCopyErr := false }

/-- Environment where the TCP dial to the requested authority fails. -/
def envDialFail : TunnelEnv :=
  { envAllOk with dialOk := false }

/-- Environment where setting the client connection deadline fails. -/
def envClientDeadlineFail : TunnelEnv :=
  { envAllOk with setClientDeadlineOk := false }

/-- Environment where setting the upstream connection deadline fails. -/
def envUpstreamDeadlineFail : TunnelEnv :=
  { envAllOk with setUpstreamDeadlineOk := false }

/-- Environment where the handshake write to the client fails. -/
def envWriteFail : TunnelEnv :=
  { envAllOk with writeOk := false }

/-- Environment where establishment succeeds but the main-goroutine
relay copy ends with an error. -/
def envRelayErr : TunnelEnv :=
  { envAllOk with mainCopyErr := true }

/-- Environment where the response writer does not support hijacking. -/
def envNoHijacker : TunnelEnv :=
  { envAllOk with hijackSupported := false }

/-- On a fully successful establishment the session trace is the
concrete event sequence of reverse.go lines 72-121, with the relay-copy
error outcomes recorded but otherwise ignored. -/
theorem ProxyHTTPS_allOk (p : ReverseProxy) (env : TunnelEnv) (now : Int)
    (host : String) (h : env.allOk = true) :
    ProxyHTTPS p env now host =
      { main := [.hijacked, .dialed host true,
                 .deadlineSet .client (computeDeadline p now),
                 .deadlineSet .upstream (computeDeadline p now),
                 .wrote .client handshake true, .spawned,
                 .copied .upstream .client env.mainCopyErr,
                 .closed .upstream, .closed .client],
        goroutine := some [.copied .client .upstream env.goroutineCopyErr,
                           .closed .client, .closed .upstream] } := by
  obtain ⟨hs, ho, dk, sc, su, w, cg, cm⟩ := env
  simp only [TunnelEnv.allOk, Bool.and_eq_true] at h
  obtain ⟨⟨⟨⟨⟨h1, h2⟩, h3⟩, h4⟩, h5⟩, h6⟩ := h
  subst h1 h2 h3 h4 h5 h6
  rfl

/-- Merging two close sequences preserves per-connection call counts. -/
theorem Interleave.count_eq {a b c : List ConnId} (h : Interleave a b c)
    (x : ConnId) : c.count x = a.count x + b.count x := by
  induction h with
  | nil => rfl
  | left _ ih => simp [List.count_cons, ih]; omega
  | right _ ih => simp [List.count_cons, ih]; omega

/-- Replaying close calls with idempotent semantics: a connection ends
closed iff it started closed or some call targeted it, and the number of
actual open-to-closed transitions is capped at one. -/
theorem closeRun_spec (l : List ConnId) : ∀ cc uc : Bool,
    ((closeRun cc uc l).clientClosed = true ↔
       (cc = true ∨ ConnId.client ∈ l)) ∧
    ((closeRun cc uc l).upstreamClosed = true ↔
       (uc = true ∨ ConnId.upstream ∈ l)) ∧
    (closeRun cc uc l).clientTransitions =
      (if cc then 0 else min 1 (l.count .client)) ∧
    (closeRun cc uc l).upstreamTransitions =
      (if uc then 0 else min 1 (l.count .upstream)) := by
  induction l with
  | nil =>
    intro cc uc
    simp [closeRun]
  | cons x rest ih =>
    intro cc uc
    cases x with
    | client =>
      have h := ih true uc
      refine ⟨?_, ?_, ?_, ?_⟩ <;>
        simp [closeRun, h.1, h.2.1, h.2.2.1, h.2.2.2, List.count_cons]
    | upstream =>
      have h := ih cc true
      refine ⟨?_, ?_, ?_, ?_⟩ <;>
        simp [closeRun, h.1, h.2.1, h.2.2.1, h.2.2.2, List.count_cons]

/-- C1: on dial failure the code merely logs and returns (reverse.go
lines 78-82); the hijacked client connection is never closed before the
handler returns, contradicting the claim that it is closed.  Evaluated
at the failing input: Timeout unset, dial to the requested authority
fails after a successful hijack. -/
theorem c1_dial_failure_leaks_client_conn :
    Event.hijacked ∈
      (ProxyHTTPS ⟨0⟩ envDialFail 0 "unreachable.example:443").main ∧
    (ProxyHTTPS ⟨0⟩ envDialFail 0 "unreachable.example:443").goroutine = none ∧
    Event.closed .client ∉
      (ProxyHTTPS ⟨0⟩ envDialFail 0 "unreachable.example:443").main := by
  refine ⟨?_, rfl, ?_⟩ <;> decide

/-- C2: on a failure of either SetDeadline call or of the handshake
write, the code logs and returns (reverse.go lines 95-111) without
closing either connection: every such establishment-phase error leaks
both the hijacked client connection and the dialed upstream connection,
contradicting the claim that both are closed before the session aborts.
Evaluated at the three failing inputs. -/
theorem c2_establishment_failures_leak_conns :
    (closesOf (ProxyHTTPS ⟨0⟩ envClientDeadlineFail 0 "h:443").main = [] ∧
       (ProxyHTTPS ⟨0⟩ envClientDeadlineFail 0 "h:443").goroutine = none) ∧
    (closesOf (ProxyHTTPS ⟨0⟩ envUpstreamDeadlineFail 0 "h:443").main = [] ∧
       (ProxyHTTPS ⟨0⟩ envUpstreamDeadlineFail 0 "h:443").goroutine = none) ∧
    (closesOf (ProxyHTTPS ⟨0⟩ envWriteFail 0 "h:443").main = [] ∧
       (ProxyHTTPS ⟨0⟩ envWriteFail 0 "h:443").goroutine = none) := by
  refine ⟨⟨?_, rfl⟩, ⟨?_, rfl⟩, ⟨?_, rfl⟩⟩ <;> decide

/-- C3: the dispatcher selects tunnel mode exactly when the method
string equals "CONNECT" under case-sensitive string comparison; every
other method string selects forward mode (reverse.go lines 124-130). -/
theorem c3_dispatch_tunnel_iff_connect (method : String) :
    ServeHTTP method = Mode.tunnel ↔ method = "CONNECT" := by
  by_cases h : method = "CONNECT" <;> simp [ServeHTTP, h]

/-- C3, instantiated: exact-case CONNECT tunnels, a lower-case variant
forwards. -/
theorem c3_dispatch_witness :
    ServeHTTP "CONNECT" = Mode.tunnel ∧ ServeHTTP "connect" = Mode.forward := by
  constructor
  · exact (c3_dispatch_tunnel_iff_connect "CONNECT").mpr rfl
  · cases h : ServeHTTP "connect" with
    | tunnel =>
      exact absurd ((c3_dispatch_tunnel_iff_connect "connect").mp h) (by decide)
    | forward => rfl

/-- C8: when the response writer does not support hijacking, the session
logs the capability failure once and returns: nothing is written to the
client, no dial is attempted, and no relay goroutine is spawned
(reverse.go lines 66-70). -/
theorem c8_no_hijacker_aborts_cleanly (p : ReverseProxy) (env : TunnelEnv)
    (now : Int) (host : String) (h : env.hijackSupported = false) :
    (ProxyHTTPS p env now host).main =
      [.logged "http server does not support hijacker"] ∧
    (ProxyHTTPS p env now host).goroutine = none ∧
    writesTo .client (ProxyHTTPS p env now host).main = [] ∧
    dialsOf (ProxyHTTPS p env now host).main = [] := by
  refine ⟨?_, ?_, ?_, ?_⟩ <;> simp [ProxyHTTPS, h, writesTo, dialsOf]

/-- C8, instantiated at a concrete non-hijackable environment. -/
theorem c8_no_hijacker_witness :
    (ProxyHTTPS ⟨0⟩ envNoHijacker 0 "example.com:443").main =
      [.logged "http server does not support hijacker"] ∧
    (ProxyHTTPS ⟨0⟩ envNoHijacker 0 "example.com:443").goroutine = none ∧
    writesTo .client (ProxyHTTPS ⟨0⟩ envNoHijacker 0 "example.com:443").main = [] ∧
    dialsOf (ProxyHTTPS ⟨0⟩ envNoHijacker 0 "example.com:443").main = [] :=
  c8_no_hijacker_aborts_cleanly ⟨0⟩ envNoHijacker 0 "example.com:443" rfl

/-- C9: constructing a proxy with a non-nil TLS client configuration
writes that configuration through the transport pointer, which at that
point aliases the process-wide shared `http.DefaultTransport` (reverse.go
lines 40-48): after construction the global default transport carries the
supplied configuration, and the proxy uses that same shared object. -/
theorem c9_mutates_shared_default_transport (g : GlobalState) (target : String)
    (cfg : TLSConfig) :
    (NewReverseProxy g target (some cfg)).2.defaultTransport.tlsClientConfig =
      some cfg ∧
    (NewReverseProxy g target (some cfg)).1.transport =
      TransportRef.defaultTransportRef ∧
    (NewReverseProxy g target none).2 = g := by
  exact ⟨rfl, rfl, rfl⟩

/-- C9, instantiated at a concrete global state and configuration. -/
theorem c9_mutates_witness :
    (NewReverseProxy ⟨⟨none⟩⟩ "http://upstream.example/base" (some ⟨7⟩)
      ).2.defaultTransport.tlsClientConfig = some ⟨7⟩ ∧
    (NewReverseProxy ⟨⟨none⟩⟩ "http://upstream.example/base" (some ⟨7⟩)
      ).1.transport = TransportRef.defaultTransportRef ∧
    (NewReverseProxy ⟨⟨none⟩⟩ "http://upstream.example/base" none).2 = ⟨⟨none⟩⟩ :=
  c9_mutates_shared_default_transport ⟨⟨none⟩⟩ "http://upstream.example/base" ⟨7⟩

/-- C4: whenever hijack, dial and both deadline sets succeed, the only
successful write on the client connection in the whole session is the
single byte sequence of `handshake`, and that write occurs strictly
before the goroutine spawn and before any relay copy (reverse.go lines
107-121). -/
theorem c4_handshake_exact_before_relay (p : ReverseProxy) (env : TunnelEnv)
    (now : Int) (host : String) (h : env.allOk = true) :
    writesTo .client (ProxyHTTPS p env now host).main = [handshake] ∧
    writesTo .client (goroutineEvents (ProxyHTTPS p env now host)) = [] ∧
    Event.wrote .client handshake true ∈
      ((ProxyHTTPS p env now host).main.takeWhile fun e => !isRelayStart e) := by
  rw [ProxyHTTPS_allOk p env now host h]
  refine ⟨?_, ?_, ?_⟩ <;>
    simp [writesTo, goroutineEvents, List.takeWhile, isRelayStart]

/-- C4, instantiated at a fully successful session. -/
theorem c4_handshake_witness :
    writesTo .client (ProxyHTTPS ⟨0⟩ envAllOk 0 "example.com:443").main =
      [handshake] ∧
    writesTo .client (goroutineEvents (ProxyHTTPS ⟨0⟩ envAllOk 0 "example.com:443")) =
      [] ∧
    Event.wrote .client handshake true ∈
      ((ProxyHTTPS ⟨0⟩ envAllOk 0 "example.com:443").main.takeWhile
        fun e => !isRelayStart e) :=
  c4_handshake_exact_before_relay ⟨0⟩ envAllOk 0 "example.com:443" rfl

/-- C5: the absolute deadline is the current time plus the configured
Timeout, with five minutes (300000000000 ns) substituted when Timeout is
zero, and in a session whose establishment succeeds this one value is
set on the client connection and then on the upstream connection
(reverse.go lines 88-105). -/
theorem c5_deadline_policy (p : ReverseProxy) (env : TunnelEnv) (now : Int)
    (host : String) (h : env.allOk = true) :
    computeDeadline p now =
      now + (if p.Timeout = 0 then 300000000000 else p.Timeout) ∧
    deadlinesSet (ProxyHTTPS p env now host).main =
      [(.client, computeDeadline p now), (.upstream, computeDeadline p now)] := by
  constructor
  · unfold computeDeadline defaultTimeout
    split <;> norm_num
  · rw [ProxyHTTPS_allOk p env now host h]
    simp [deadlinesSet]

/-- C5, instantiated with Timeout unset: both connections get
now + 300000000000. -/
theorem c5_deadline_witness :
    computeDeadline ⟨0⟩ 1000 =
      1000 + (if (0 : Int) = 0 then 300000000000 else 0) ∧
    deadlinesSet (ProxyHTTPS ⟨0⟩ envAllOk 1000 "example.com:443").main =
      [(.client, computeDeadline ⟨0⟩ 1000), (.upstream, computeDeadline ⟨0⟩ 1000)] :=
  c5_deadline_policy ⟨0⟩ envAllOk 1000 "example.com:443" rfl

/-- C10: only Timeout equal to zero selects the five-minute default; a
negative Timeout is added to the current time unchanged, yielding a
deadline strictly in the past that is still set on both connections
(reverse.go lines 88-93). -/
theorem c10_negative_timeout_past_deadline (p : ReverseProxy) (env : TunnelEnv)
    (now : Int) (host : String) (hneg : p.Timeout < 0) (h : env.allOk = true) :
    computeDeadline p now = now + p.Timeout ∧
    computeDeadline p now < now ∧
    deadlinesSet (ProxyHTTPS p env now host).main =
      [(.client, computeDeadline p now), (.upstream, computeDeadline p now)] := by
  have hne : p.Timeout ≠ 0 := by omega
  have hv : computeDeadline p now = now + p.Timeout := by
    unfold computeDeadline
    simp [hne]
  refine ⟨hv, by omega, ?_⟩
  rw [ProxyHTTPS_allOk p env now host h]
  simp [deadlinesSet]

/-- C10, instantiated with Timeout = -7: the deadline is 7 ns in the
past and is applied to both connections. -/
theorem c10_negative_timeout_witness :
    computeDeadline ⟨-7⟩ 1000 = 1000 + -7 ∧
    computeDeadline ⟨-7⟩ 1000 < 1000 ∧
    deadlinesSet (ProxyHTTPS ⟨-7⟩ envAllOk 1000 "example.com:443").main =
      [(.client, computeDeadline ⟨-7⟩ 1000), (.upstream, computeDeadline ⟨-7⟩ 1000)] :=
  c10_negative_timeout_past_deadline ⟨-7⟩ envAllOk 1000 "example.com:443"
    (by norm_num) rfl

/-- C6: in a session that reaches the relay phase, each completion path
closes both connections immediately after its copy finishes, and under
every possible global order of those close calls, idempotent-close
semantics leaves both connections closed with exactly one open-to-closed
transition each: each connection is closed exactly once over the session
even though Close is invoked from both paths (reverse.go lines 113-121). -/
theorem c6_both_closed_exactly_once (p : ReverseProxy) (env : TunnelEnv)
    (now : Int) (host : String) (g : List Event) (s : List ConnId)
    (h : env.allOk = true)
    (hg : (ProxyHTTPS p env now host).goroutine = some g)
    (hi : Interleave (closesOf (ProxyHTTPS p env now host).main) (closesOf g) s) :
    closesOf (ProxyHTTPS p env now host).main = [.upstream, .client] ∧
    closesOf g = [.client, .upstream] ∧
    g = [.copied .client .upstream env.goroutineCopyErr,
         .closed .client, .closed .upstream] ∧
    (ProxyHTTPS p env now host).main.drop 6 =
      [.copied .upstream .client env.mainCopyErr,
       .closed .upstream, .closed .client] ∧
    (closeRun false false s).clientClosed = true ∧
    (closeRun false false s).upstreamClosed = true ∧
    (closeRun false false s).clientTransitions = 1 ∧
    (closeRun false false s).upstreamTransitions = 1 := by
  rw [ProxyHTTPS_allOk p env now host h] at hg hi ⊢
  have hgeq : g = [.copied .client .upstream env.goroutineCopyErr,
      .closed .client, .closed .upstream] := by
    simpa using hg.symm
  subst hgeq
  have hmain : closesOf [Event.hijacked, .dialed host true,
      .deadlineSet .client (computeDeadline p now),
      .deadlineSet .upstream (computeDeadline p now),
      .wrote .client handshake true, .spawned,
      .copied .upstream .client env.mainCopyErr,
      .closed .upstream, .closed .client] = [.upstream, .client] := by
    simp [closesOf]
  have hgoro : closesOf [Event.copied .client .upstream env.goroutineCopyErr,
      .closed .client, .closed .upstream] = [.client, .upstream] := by
    simp [closesOf]
  rw [hmain, hgoro] at hi
  have hcc : s.count .client = 2 := by
    have := hi.count_eq .client
    simpa using this
  have hcu : s.count .upstream = 2 := by
    have := hi.count_eq .upstream
    simpa using this
  have hspec := closeRun_spec s false false
  have hmemc : ConnId.client ∈ s := by
    have : 0 < s.count ConnId.client := by omega
    exact List.count_pos_iff.mp this
  have hmemu : ConnId.upstream ∈ s := by
    have : 0 < s.count ConnId.upstream := by omega
    exact List.count_pos_iff.mp this
  refine ⟨hmain, hgoro, rfl, rfl, ?_, ?_, ?_, ?_⟩
  · exact hspec.1.mpr (Or.inr hmemc)
  · exact hspec.2.1.mpr (Or.inr hmemu)
  · rw [hspec.2.2.1, hcc]
    norm_num
  · rw [hspec.2.2.2, hcu]
    norm_num

/-- C6, instantiated at a fully successful session with the close order
in which the main goroutine finishes first. -/
theorem c6_closed_once_witness :
    (closeRun false false [ConnId.upstream, .client, .client, .upstream]
      ).clientClosed = true ∧
    (closeRun false false [ConnId.upstream, .client, .client, .upstream]
      ).upstreamClosed = true ∧
    (closeRun false false [ConnId.upstream, .client, .client, .upstream]
      ).clientTransitions = 1 ∧
    (closeRun false false [ConnId.upstream, .client, .client, .upstream]
      ).upstreamTransitions = 1 := by
  have h := c6_both_closed_exactly_once ⟨0⟩ envAllOk 0 "example.com:443"
    [.copied .client .upstream false, .closed .client, .closed .upstream]
    [ConnId.upstream, .client, .client, .upstream] rfl rfl
    (.left (.left (.right (.right .nil))))
  exact ⟨h.2.2.2.2.1, h.2.2.2.2.2.1, h.2.2.2.2.2.2.1, h.2.2.2.2.2.2.2⟩

/-- C7 as stated is false: in a session whose main-goroutine relay copy
ends with an error, nothing at all is logged — the copy error values of
reverse.go lines 114 and 119 are discarded without a logf call.  The
claim that relay errors are logged fails at this input. -/
theorem c7_relay_error_not_logged :
    envRelayErr.mainCopyErr = true ∧
    Event.copied .upstream .client true ∈
      (ProxyHTTPS ⟨0⟩ envRelayErr 0 "example.com:443").main ∧
    logsOfSession (ProxyHTTPS ⟨0⟩ envRelayErr 0 "example.com:443") = [] := by
  refine ⟨rfl, ?_, ?_⟩ <;> decide

/-- C7 amended: relay copy errors are silently discarded — for every
session reaching the relay phase, regardless of either copy outcome,
no message is logged anywhere in the session, each direction performs
exactly one copy (no retry), and both completion paths proceed to the
same close sequence independently of the error outcome. -/
theorem c7_amended_relay_errors_dropped (p : ReverseProxy) (env : TunnelEnv)
    (now : Int) (host : String) (h : env.allOk = true) :
    logsOfSession (ProxyHTTPS p env now host) = [] ∧
    copyCount (ProxyHTTPS p env now host).main = 1 ∧
    copyCount (goroutineEvents (ProxyHTTPS p env now host)) = 1 ∧
    closesOf (ProxyHTTPS p env now host).main = [.upstream, .client] ∧
    closesOf (goroutineEvents (ProxyHTTPS p env now host)) =
      [.client, .upstream] := by
  rw [ProxyHTTPS_allOk p env now host h]
  refine ⟨?_, ?_, ?_, ?_, ?_⟩ <;>
    simp [logsOfSession, logsOf, copyCount, closesOf, goroutineEvents,
      List.filter]

/-- C7 amended, instantiated at a session whose main-goroutine copy
errored: still nothing logged, one copy per direction, both paths close
both connections. -/
theorem c7_amended_witness :
    logsOfSession (ProxyHTTPS ⟨0⟩ envRelayErr 0 "example.com:443") = [] ∧
    copyCount (ProxyHTTPS ⟨0⟩ envRelayErr 0 "example.com:443").main = 1 ∧
    copyCount (goroutineEvents (ProxyHTTPS ⟨0⟩ envRelayErr 0 "example.com:443")) = 1 ∧
    closesOf (ProxyHTTPS ⟨0⟩ envRelayErr 0 "example.com:443").main =
      [.upstream, .client] ∧
    closesOf (goroutineEvents (ProxyHTTPS ⟨0⟩ envRelayErr 0 "example.com:443")) =
      [.client, .upstream] :=
  c7_amended_relay_errors_dropped ⟨0⟩ envRelayErr 0 "example.com:443" rfl
